import Mathlib

/-
Verification of the local-first SQLite store and sync engine of
starterclic/microdiag (src-tauri/src/database.rs, src-tauri/src/sync.rs).

The SQLite tables are modelled as Lean lists of rows; each store operation
is a pure function from table state to table state, translated statement by
statement from the Rust source.  SQLite's BINARY collation on TEXT columns
(a memcmp of the UTF-8 bytes, which for text agrees with lexicographic
comparison of the code points) is modelled by charListLt below, since the
source compares timestamp strings with `<` / `>` inside SQL.
-/

namespace Microdiag

/-- Lexicographic comparison of character lists by code point.  For UTF-8
encoded text this coincides with SQLite's BINARY collation (bytewise
memcmp), which is what `expires_at > datetime('now')` and
`timestamp < datetime('now', '-7 days')` use on TEXT columns. -/
def charListLt : List Char → List Char → Bool
  | _, [] => false
  | [], _ :: _ => true
  | a :: as, b :: bs =>
    if a.toNat < b.toNat then true
    else if b.toNat < a.toNat then false
    else charListLt as bs

/-- SQLite TEXT comparison `a < b` under the default BINARY collation. -/
def sqliteTextLt (a b : String) : Bool := charListLt a.data b.data

-- ============================================
-- device_cache table (database.rs, CACHE OPERATIONS)
-- ============================================

/-- A row of the `device_cache` table: `key TEXT PRIMARY KEY`,
`value TEXT NOT NULL`, `expires_at TEXT` (nullable). -/
structure CacheRow where
  key : String
  value : String
  expires_at : Option String
  deriving DecidableEq, Repr

/-- The single-quote character, used to spell out the SQL text that
`set_cache` stores. -/
def sqQuote : Char := Char.ofNat 39

/-- The exact string produced by
`format!("datetime('now', '+{} minutes')", m)` in `set_cache`
(database.rs line 350).  Note that the Rust code binds this string as the
`?3` parameter of the INSERT, so this literal text (not a computed
timestamp) is what lands in the `expires_at` column. -/
def sqlNowPlusMinutesExpr (m : Int) : String :=
  "datetime(" ++ String.singleton sqQuote ++ "now" ++ String.singleton sqQuote
    ++ ", " ++ String.singleton sqQuote ++ "+" ++ toString m ++ " minutes"
    ++ String.singleton sqQuote ++ ")"

/-- `Database::set_cache(key, value, ttl_minutes)` (database.rs 348-357):
`INSERT OR REPLACE INTO device_cache (key, value, expires_at)` with the
formatted datetime expression bound as a parameter.  INSERT OR REPLACE on
the `key` PRIMARY KEY removes any row with the same key before inserting. -/
def set_cache (table : List CacheRow) (key value : String)
    (ttl_minutes : Option Int) : List CacheRow :=
  let expires := ttl_minutes.map (fun m => sqlNowPlusMinutesExpr m)
  table.filter (fun r => !(r.key == key)) ++ [⟨key, value, expires⟩]

/-- The WHERE clause of `get_cache`:
`key = ?1 AND (expires_at IS NULL OR expires_at > datetime('now'))`,
where `now` stands for the text returned by `datetime('now')`
(format `YYYY-MM-DD HH:MM:SS`). -/
def cacheRowLive (now : String) (r : CacheRow) : Bool :=
  match r.expires_at with
  | none => true
  | some e => sqliteTextLt now e

/-- `Database::get_cache(key)` (database.rs 359-372): `query_row` returns
the first matching row's `value`; `QueryReturnedNoRows` is mapped to
`Ok(None)`.  The function runs a SELECT only — it never deletes a row. -/
def get_cache (table : List CacheRow) (now : String) (key : String) :
    Option String :=
  (table.find? (fun r => r.key == key && cacheRowLive now r)).map
    (fun r => r.value)

/-- `Database::delete_cache(key)` (database.rs 374-378). -/
def delete_cache (table : List CacheRow) (key : String) : List CacheRow :=
  table.filter (fun r => !(r.key == key))

/-- `Database::cleanup_expired_cache` (database.rs 380-384):
`DELETE FROM device_cache WHERE expires_at < datetime('now')`; a NULL
`expires_at` compares to NULL and is not deleted.  Returns the surviving
table and the number of rows deleted. -/
def cleanup_expired_cache (table : List CacheRow) (now : String) :
    List CacheRow × Nat :=
  let deleted := table.filter (fun r =>
    match r.expires_at with
    | none => false
    | some e => sqliteTextLt e now)
  (table.filter (fun r =>
    match r.expires_at with
    | none => true
    | some e => !(sqliteTextLt e now)), deleted.length)

/-- C1: the claim says that after `cache_set(k, v, ttl_minutes = Some m)` a
`cache_get(k)` later than m minutes after the set returns `None`.  The code
violates this: `set_cache` stores the literal text
`datetime('now', '+0 minutes')` in `expires_at` (the SQL expression is
bound as a parameter, not evaluated), and the TEXT comparison
`expires_at > datetime('now')` compares the letter `d` against the leading
digit of the current datetime, which always succeeds.  Concretely, a value
set with a 0-minute TTL at some instant is still returned by `get_cache`
when `datetime('now')` reads `2026-01-01 01:00:00`, one hour later —
a TTL-bound cache entry never expires. -/
theorem c1_cache_ttl_never_expires_bug :
    get_cache (set_cache [] "k" "v" (some 0)) "2026-01-01 01:00:00" "k"
      = some "v" := by
  decide

-- ============================================
-- sync_queue table (database.rs, SYNC QUEUE OPERATIONS)
-- ============================================

/-- A row of the `sync_queue` table (database.rs 84-94, struct
`SyncQueueItem` 418-427): id is the INTEGER PRIMARY KEY AUTOINCREMENT,
`retry_count INTEGER DEFAULT 0`, `last_error TEXT` nullable. -/
structure SyncQueueItem where
  id : Int
  table_name : String
  operation : String
  data : String
  created_at : String
  retry_count : Int
  last_error : Option String
  deriving DecidableEq, Repr

/-- The rowid SQLite assigns to a fresh `sync_queue` insert: one more than
the largest id in use. -/
def nextQueueId (q : List SyncQueueItem) : Int :=
  (q.map (fun x => x.id)).foldl max 0 + 1

/-- `Database::add_to_sync_queue` (database.rs 430-437): INSERT with
`retry_count` defaulting to 0, `last_error` to NULL and `created_at` to
CURRENT_TIMESTAMP (passed here as `now`); returns `last_insert_rowid`. -/
def add_to_sync_queue (q : List SyncQueueItem)
    (table_name operation data now : String) : List SyncQueueItem × Int :=
  let id := nextQueueId q
  (q ++ [⟨id, table_name, operation, data, now, 0, none⟩], id)

/-- Insertion step for modelling SQL ORDER BY with a boolean "less or
equal" test. -/
def insertSorted {α : Type} (le : α → α → Bool) (x : α) :
    List α → List α
  | [] => [x]
  | y :: ys => if le x y then x :: y :: ys else y :: insertSorted le x ys

/-- Insertion sort, modelling SQL ORDER BY (tie order in SQLite is
unspecified; the claims below only depend on membership). -/
def sortByLe {α : Type} (le : α → α → Bool) : List α → List α
  | [] => []
  | x :: xs => insertSorted le x (sortByLe le xs)

/-- Ordering used by `ORDER BY created_at ASC` on the sync queue. -/
def createdAtLe (a b : SyncQueueItem) : Bool :=
  !(sqliteTextLt b.created_at a.created_at)

/-- SQL `LIMIT ?`: a negative limit means no limit in SQLite; otherwise at
most `limit` rows are returned. -/
def sqlLimit {α : Type} (limit : Int) (l : List α) : List α :=
  if limit < 0 then l else l.take limit.toNat

/-- `Database::get_pending_sync_items(limit)` (database.rs 439-459):
`SELECT ... FROM sync_queue WHERE retry_count < 5 ORDER BY created_at ASC
LIMIT ?1`.  A pure read: the table itself is not modified. -/
def get_pending_sync_items (q : List SyncQueueItem) (limit : Int) :
    List SyncQueueItem :=
  sqlLimit limit
    (sortByLe createdAtLe (q.filter (fun x => decide (x.retry_count < 5))))

/-- `Database::mark_sync_success(id)` (database.rs 461-465):
`DELETE FROM sync_queue WHERE id = ?1`. -/
def mark_sync_success (q : List SyncQueueItem) (id : Int) :
    List SyncQueueItem :=
  q.filter (fun x => !(x.id == id))

/-- `Database::mark_sync_failed(id, error)` (database.rs 467-474):
`UPDATE sync_queue SET retry_count = retry_count + 1, last_error = ?2
WHERE id = ?1`.  The error string is bound as-is — the source applies no
truncation to it. -/
def mark_sync_failed (q : List SyncQueueItem) (id : Int) (error : String) :
    List SyncQueueItem :=
  q.map (fun x =>
    if x.id = id then
      { x with retry_count := x.retry_count + 1, last_error := some error }
    else x)

/-- The store operations that write to the `sync_queue` table. -/
inductive StoreOp where
  | add (table_name operation data now : String)
  | markSuccess (id : Int)
  | markFailed (id : Int) (error : String)
  deriving DecidableEq, Repr

/-- Applying one store operation to the `sync_queue` table state. -/
def applyOp (op : StoreOp) (q : List SyncQueueItem) : List SyncQueueItem :=
  match op with
  | .add t o d now => (add_to_sync_queue q t o d now).1
  | .markSuccess id => mark_sync_success q id
  | .markFailed id e => mark_sync_failed q id e

theorem mem_insertSorted {α : Type} (le : α → α → Bool) (x y : α)
    (l : List α) : y ∈ insertSorted le x l ↔ y = x ∨ y ∈ l := by
  induction l with
  | nil => simp [insertSorted]
  | cons a as ih =>
    simp only [insertSorted]
    split
    · simp [List.mem_cons]
    · simp [List.mem_cons, ih]
      tauto

theorem mem_sortByLe {α : Type} (le : α → α → Bool) (y : α) (l : List α) :
    y ∈ sortByLe le l ↔ y ∈ l := by
  induction l with
  | nil => simp [sortByLe]
  | cons a as ih => simp [sortByLe, mem_insertSorted, ih, List.mem_cons]

theorem mem_of_mem_sqlLimit {α : Type} (limit : Int) (l : List α) (y : α)
    (h : y ∈ sqlLimit limit l) : y ∈ l := by
  unfold sqlLimit at h
  split at h
  · exact h
  · exact List.take_subset _ _ h

/-- C2: over the sync-queue store operations, `retry_count` never decreases
(for `mark_sync_failed` the matched row reappears with `retry_count + 1`),
every row with `retry_count >= 5` is excluded from
`get_pending_sync_items` for any limit (a pure read — the row stays in the
table), and every operation other than `mark_sync_success` preserves every
stored id. -/
theorem c2_retry_count_monotone_and_parked :
    (∀ (op : StoreOp) (q : List SyncQueueItem) (x : SyncQueueItem),
        x ∈ applyOp op q →
        x.retry_count = 0 ∨
          ∃ y ∈ q, y.id = x.id ∧ y.retry_count ≤ x.retry_count) ∧
    (∀ (q : List SyncQueueItem) (id : Int) (e : String)
        (x : SyncQueueItem), x ∈ q → x.id = id →
        { x with retry_count := x.retry_count + 1, last_error := some e } ∈
          mark_sync_failed q id e) ∧
    (∀ (q : List SyncQueueItem) (limit : Int) (x : SyncQueueItem),
        5 ≤ x.retry_count → x ∉ get_pending_sync_items q limit) ∧
    (∀ (op : StoreOp) (q : List SyncQueueItem),
        (∀ i : Int, op ≠ StoreOp.markSuccess i) →
        ∀ x ∈ q, ∃ y ∈ applyOp op q, y.id = x.id) := by
  refine ⟨?_, ?_, ?_, ?_⟩
  · intro op q x hx
    cases op with
    | add t o d now =>
      simp only [applyOp, add_to_sync_queue, List.mem_append,
        List.mem_singleton] at hx
      rcases hx with h | h
      · exact Or.inr ⟨x, h, rfl, le_refl _⟩
      · subst h; exact Or.inl rfl
    | markSuccess i =>
      simp only [applyOp, mark_sync_success, List.mem_filter] at hx
      exact Or.inr ⟨x, hx.1, rfl, le_refl _⟩
    | markFailed i e =>
      simp only [applyOp, mark_sync_failed, List.mem_map] at hx
      obtain ⟨y, hy, hxy⟩ := hx
      by_cases hid : y.id = i
      · rw [if_pos hid] at hxy
        subst hxy
        refine Or.inr ⟨y, hy, rfl, ?_⟩
        show y.retry_count ≤ y.retry_count + 1
        omega
      · rw [if_neg hid] at hxy
        subst hxy
        exact Or.inr ⟨y, hy, rfl, le_refl _⟩
  · intro q id e x hx hid
    simp only [mark_sync_failed, List.mem_map]
    exact ⟨x, hx, by rw [if_pos hid]⟩
  · intro q limit x h5 hmem
    simp only [get_pending_sync_items] at hmem
    have h1 := mem_of_mem_sqlLimit _ _ _ hmem
    have h2 := (mem_sortByLe _ _ _).1 h1
    have h3 := List.mem_filter.1 h2
    have h4 := of_decide_eq_true h3.2
    omega
  · intro op q hop x hx
    cases op with
    | add t o d now =>
      refine ⟨x, ?_, rfl⟩
      simp only [applyOp, add_to_sync_queue, List.mem_append]
      exact Or.inl hx
    | markSuccess i => exact absurd rfl (hop i)
    | markFailed i e =>
      refine ⟨if x.id = i then
          { x with
            retry_count := x.retry_count + 1
            last_error := some e } else x, ?_, ?_⟩
      · simp only [applyOp, mark_sync_failed, List.mem_map]
        exact ⟨x, hx, rfl⟩
      · split <;> rfl

/-- Witness for C2: a concrete row with retry_count 5 is not returned by
`get_pending_sync_items`, and `mark_sync_failed` keeps its id stored. -/
theorem c2_retry_count_monotone_and_parked_witness :
    (⟨1, "t", "o", "d", "2026-01-01 00:00:00", 5, none⟩ : SyncQueueItem) ∉
      get_pending_sync_items
        [⟨1, "t", "o", "d", "2026-01-01 00:00:00", 5, none⟩] 10 ∧
    (∃ y ∈ applyOp (StoreOp.markFailed 1 "boom")
        [⟨1, "t", "o", "d", "2026-01-01 00:00:00", 5, none⟩],
      y.id = (⟨1, "t", "o", "d", "2026-01-01 00:00:00", 5,
        none⟩ : SyncQueueItem).id) :=
  ⟨c2_retry_count_monotone_and_parked.2.2.1 _ 10 _ (by decide),
   c2_retry_count_monotone_and_parked.2.2.2 _ _
     (by intro i h; exact StoreOp.noConfusion h) _ (by simp)⟩

/-- A concrete sync-queue row used in the C4 counterexample. -/
def c4row : SyncQueueItem :=
  ⟨1, "metrics_history", "insert", "x", "2026-01-01 00:00:00", 0, none⟩

/-- An error string of 100000 characters, far beyond the bound of about
2000 characters asserted by the claim. -/
def c4bigError : String := String.mk (List.replicate 100000 (Char.ofNat 120))

/-- C4 counterexample: `mark_sync_failed` stores the error text verbatim.
A 100000-character error ends up in `last_error` whole — it is not
truncated to a bounded length on the order of 2000 characters: the
UPDATE statement (database.rs 470) binds the error string unmodified. -/
theorem c4_error_text_not_truncated_cex :
    mark_sync_failed [c4row] 1 c4bigError =
      [{ c4row with retry_count := 1, last_error := some c4bigError }] ∧
    c4bigError.length = 100000 := by
  constructor
  · rfl
  · show (List.replicate 100000 (Char.ofNat 120)).length = 100000
    exact List.length_replicate 100000 _

/-- C4 amended: `mark_sync_failed(id, e)` increments the matched row's
`retry_count` by exactly 1 and overwrites `last_error` with `e` in full
(no truncation), discarding any previously stored error text; all other
rows are unchanged and no row is added or removed. -/
theorem c4_mark_sync_failed_verbatim :
    ∀ (q : List SyncQueueItem) (id : Int) (e : String),
      (mark_sync_failed q id e).length = q.length ∧
      (∀ x ∈ q, x.id = id →
        { x with retry_count := x.retry_count + 1, last_error := some e } ∈
          mark_sync_failed q id e) ∧
      (∀ x ∈ q, x.id ≠ id → x ∈ mark_sync_failed q id e) ∧
      (∀ y ∈ mark_sync_failed q id e, y.id = id → y.last_error = some e) := by
  intro q id e
  refine ⟨List.length_map _ _, ?_, ?_, ?_⟩
  · intro x hx hid
    simp only [mark_sync_failed, List.mem_map]
    exact ⟨x, hx, by rw [if_pos hid]⟩
  · intro x hx hid
    simp only [mark_sync_failed, List.mem_map]
    exact ⟨x, hx, by rw [if_neg hid]⟩
  · intro y hy hid
    simp only [mark_sync_failed, List.mem_map] at hy
    obtain ⟨x, hx, hxy⟩ := hy
    by_cases h : x.id = id
    · rw [if_pos h] at hxy; rw [← hxy]
    · rw [if_neg h] at hxy; subst hxy; exact absurd hid h

/-- Witness for C4's amended statement at a concrete queue. -/
theorem c4_mark_sync_failed_verbatim_witness :
    { c4row with
      retry_count := c4row.retry_count + 1
      last_error := some "err" } ∈ mark_sync_failed [c4row] 1 "err" :=
  (c4_mark_sync_failed_verbatim [c4row] 1 "err").2.1 c4row (by simp)
    (by decide)

-- ============================================
-- metrics_history table (database.rs, METRICS OPERATIONS)
-- ============================================

/-- A row of the `metrics_history` table (database.rs 68-80): id is the
INTEGER PRIMARY KEY, `timestamp TEXT DEFAULT CURRENT_TIMESTAMP`,
`synced INTEGER DEFAULT 0`.  The REAL measurement columns (cpu_usage,
memory_percent, disk_percent) and health_score/health_status are carried
by the code but never read or written by `mark_metrics_synced` or
`cleanup_old_metrics`, the operations verified here, so they are omitted
from the row model. -/
structure MetricsRow where
  id : Int
  timestamp : String
  synced : Bool
  deriving DecidableEq, Repr

/-- One iteration of the loop in `mark_metrics_synced`:
`UPDATE metrics_history SET synced = 1 WHERE id = ?1`.  An UPDATE whose
WHERE clause matches no row succeeds and changes nothing. -/
def updateSyncedOne (rows : List MetricsRow) (id : Int) : List MetricsRow :=
  rows.map (fun r => if r.id = id then { r with synced := true } else r)

/-- `Database::mark_metrics_synced(ids)` (database.rs 326-332): one UPDATE
statement per id, executed sequentially; no statement can fail on a
missing id, so the function is total. -/
def mark_metrics_synced (rows : List MetricsRow) (ids : List Int) :
    List MetricsRow :=
  ids.foldl updateSyncedOne rows

/-- The WHERE clause of `cleanup_old_metrics`:
`timestamp < datetime('now', '-7 days') AND synced = 1`, where `cutoff`
stands for the text produced by `datetime('now', '-7 days')`. -/
def metricsPrunable (cutoff : String) (r : MetricsRow) : Bool :=
  sqliteTextLt r.timestamp cutoff && r.synced

/-- `Database::cleanup_old_metrics` (database.rs 335-341): a single DELETE
whose `conn.execute` return value is the number of rows deleted.  Returns
the surviving table and that count. -/
def cleanup_old_metrics (rows : List MetricsRow) (cutoff : String) :
    List MetricsRow × Nat :=
  (rows.filter (fun r => !(metricsPrunable cutoff r)),
    (rows.filter (fun r => metricsPrunable cutoff r)).length)

/-- C5: `cleanup_old_metrics` deletes exactly the rows with `synced = 1`
and a timestamp older than the 7-day cutoff and returns the number of
rows deleted: unsynced rows survive regardless of age, synced rows younger
than the cutoff survive, prunable rows are gone, and the returned count
plus the surviving rows add up to the original table. -/
theorem c5_cleanup_old_metrics_correct :
    ∀ (rows : List MetricsRow) (cutoff : String),
      (∀ r ∈ rows, r.synced = false →
        r ∈ (cleanup_old_metrics rows cutoff).1) ∧
      (∀ r ∈ rows, sqliteTextLt r.timestamp cutoff = false →
        r ∈ (cleanup_old_metrics rows cutoff).1) ∧
      (∀ r, r.synced = true → sqliteTextLt r.timestamp cutoff = true →
        r ∉ (cleanup_old_metrics rows cutoff).1) ∧
      (cleanup_old_metrics rows cutoff).1.length
          + (cleanup_old_metrics rows cutoff).2 = rows.length := by
  intro rows cutoff
  refine ⟨?_, ?_, ?_, ?_⟩
  · intro r hr hs
    simp only [cleanup_old_metrics, List.mem_filter]
    exact ⟨hr, by simp [metricsPrunable, hs]⟩
  · intro r hr ht
    simp only [cleanup_old_metrics, List.mem_filter]
    exact ⟨hr, by simp [metricsPrunable, ht]⟩
  · intro r hs ht hmem
    simp only [cleanup_old_metrics, List.mem_filter] at hmem
    have := hmem.2
    simp [metricsPrunable, hs, ht] at this
  · simp only [cleanup_old_metrics]
    induction rows with
    | nil => rfl
    | cons a as ih =>
      by_cases h : metricsPrunable cutoff a = true
      · simp [List.filter_cons, h]
        omega
      · simp only [Bool.not_eq_true] at h
        simp [List.filter_cons, h]
        omega

/-- Witness for C5: a synced 8-day-old row is deleted, an unsynced row of
the same age and a young synced row are retained, and the count is 1. -/
theorem c5_cleanup_old_metrics_correct_witness :
    (⟨2, "2026-01-01 00:00:00", false⟩ : MetricsRow) ∈
      (cleanup_old_metrics
        [⟨1, "2026-01-01 00:00:00", true⟩,
         ⟨2, "2026-01-01 00:00:00", false⟩,
         ⟨3, "2026-01-08 12:00:00", true⟩] "2026-01-05 00:00:00").1 ∧
    (⟨1, "2026-01-01 00:00:00", true⟩ : MetricsRow) ∉
      (cleanup_old_metrics
        [⟨1, "2026-01-01 00:00:00", true⟩,
         ⟨2, "2026-01-01 00:00:00", false⟩,
         ⟨3, "2026-01-08 12:00:00", true⟩] "2026-01-05 00:00:00").1 :=
  ⟨(c5_cleanup_old_metrics_correct _ "2026-01-05 00:00:00").1 _
      (by simp) (by decide),
   (c5_cleanup_old_metrics_correct _ "2026-01-05 00:00:00").2.2.1 _
      (by decide) (by decide)⟩

/-- C7: `mark_metrics_synced` acts per id, independently: the result is
exactly the original table with `synced` set on every row whose id occurs
in the list (existing ids are all flipped even when the list also holds
ids present in no row, and rows whose id is absent from the list are
untouched); the function is total, so a nonexistent id never raises. -/
theorem c7_mark_metrics_synced_per_id :
    ∀ (rows : List MetricsRow) (ids : List Int),
      mark_metrics_synced rows ids =
        rows.map (fun r =>
          if r.id ∈ ids then { r with synced := true } else r) := by
  intro rows ids
  induction ids generalizing rows with
  | nil =>
    simp only [mark_metrics_synced, List.foldl_nil, List.not_mem_nil,
      if_false]
    exact (List.map_id' rows).symm
  | cons i is ih =>
    show mark_metrics_synced (updateSyncedOne rows i) is = _
    rw [ih]
    simp only [updateSyncedOne, List.map_map]
    refine List.map_congr_left ?_
    intro r _
    simp only [Function.comp_apply]
    by_cases h1 : r.id = i
    · by_cases h2 : r.id ∈ is <;>
        simp [h1, h2, List.mem_cons]
    · by_cases h2 : r.id ∈ is <;>
        simp [h1, h2, List.mem_cons]

-- ============================================
-- scripts table (database.rs, SCRIPT OPERATIONS)
-- ============================================

/-- The `LocalScript` struct (database.rs 141-155). -/
structure LocalScript where
  id : String
  slug : String
  name : String
  description : Option String
  category : String
  language : String
  code : String
  icon : Option String
  is_active : Bool
  requires_admin : Bool
  estimated_time : Option String
  success_message : Option String
  deriving DecidableEq, Repr

/-- A stored row of the `scripts` table: the script fields plus the
`synced_at TEXT DEFAULT CURRENT_TIMESTAMP` column set by the upsert. -/
structure ScriptRow where
  script : LocalScript
  synced_at : String
  deriving DecidableEq, Repr

/-- Uniqueness conflict in the `scripts` table (database.rs 47-49):
`id TEXT PRIMARY KEY` and `slug TEXT NOT NULL UNIQUE`. -/
def scriptConflict (r : ScriptRow) (s : LocalScript) : Bool :=
  r.script.id == s.id || r.script.slug == s.slug

/-- `Database::upsert_script` (database.rs 217-240): `INSERT OR REPLACE
INTO scripts ...`.  SQLite's REPLACE conflict resolution deletes every
existing row that violates the `id` primary key or the UNIQUE `slug`
constraint and then inserts the new row, so the statement never returns a
constraint error; `synced_at` is stamped with CURRENT_TIMESTAMP (`now`). -/
def upsert_script (table : List ScriptRow) (s : LocalScript) (now : String) :
    List ScriptRow :=
  table.filter (fun r => !(scriptConflict r s)) ++ [⟨s, now⟩]

theorem filter_idem {α : Type} (p : α → Bool) (l : List α) :
    (l.filter p).filter p = l.filter p := by
  induction l with
  | nil => rfl
  | cons a as ih =>
    by_cases h : p a = true
    · simp [List.filter_cons, h, ih]
    · simp only [Bool.not_eq_true] at h
      simp [List.filter_cons, h, ih]

theorem countP_upsert_script (table : List ScriptRow) (s : LocalScript)
    (now : String) :
    (upsert_script table s now).countP (fun r => r.script.id == s.id)
      = 1 := by
  simp only [upsert_script, List.countP_append]
  have h0 : (table.filter (fun r => !(scriptConflict r s))).countP
      (fun r => r.script.id == s.id) = 0 := by
    rw [List.countP_eq_zero]
    intro r hr
    have h := (List.mem_filter.1 hr).2
    simp only [scriptConflict, Bool.not_eq_eq_eq_not, Bool.not_true,
      Bool.or_eq_false_iff] at h
    simp [h.1]
  rw [h0]
  simp [List.countP_cons]

/-- C6: `upsert_script` is idempotent on identical input — repeating the
same record leaves the table exactly as a single call would (the second
call replaces the row the first call wrote, conflicting with itself on
both id and slug), and exactly one row with the record's id is stored. -/
theorem c6_upsert_script_idempotent :
    ∀ (table : List ScriptRow) (s : LocalScript) (t1 t2 : String),
      upsert_script (upsert_script table s t1) s t2
          = upsert_script table s t2 ∧
      (upsert_script (upsert_script table s t1) s t2).countP
          (fun r => r.script.id == s.id) = 1 := by
  intro table s t1 t2
  have hidem : upsert_script (upsert_script table s t1) s t2
      = upsert_script table s t2 := by
    simp only [upsert_script, List.filter_append]
    rw [filter_idem]
    have hsingle :
        List.filter (fun r => !(scriptConflict r s))
          [(⟨s, t1⟩ : ScriptRow)] = [] := by
      simp [List.filter_cons, scriptConflict]
    rw [hsingle, List.append_nil]
  exact ⟨hidem, by rw [hidem]; exact countP_upsert_script table s t2⟩

/-- C10: `upsert_script` resolves a slug collision by replacement, not by
rejection: upserting a record `n` whose slug equals that of a stored row
`r` with a different id always succeeds (the model is a total function,
mirroring REPLACE conflict resolution), removes every row carrying `r`'s
(id, slug) identity, and stores `n`. -/
theorem c10_upsert_script_slug_replaces :
    ∀ (table : List ScriptRow) (r : ScriptRow) (n : LocalScript)
      (t : String), r ∈ table → n.id ≠ r.script.id →
      n.slug = r.script.slug →
      (∀ x ∈ upsert_script table n t,
        ¬(x.script.id = r.script.id ∧ x.script.slug = r.script.slug)) ∧
      (∃ x ∈ upsert_script table n t, x.script = n) := by
  intro table r n t hr hid hslug
  constructor
  · rintro x hx ⟨hxid, hxslug⟩
    simp only [upsert_script, List.mem_append, List.mem_singleton] at hx
    rcases hx with h | h
    · have h2 := (List.mem_filter.1 h).2
      simp only [scriptConflict, Bool.not_eq_eq_eq_not, Bool.not_true,
        Bool.or_eq_false_iff] at h2
      have : x.script.slug = n.slug := hxslug.trans hslug.symm
      simp [this] at h2
    · subst h
      exact hid hxid.symm.symm
  · refine ⟨⟨n, t⟩, ?_, rfl⟩
    simp [upsert_script]

/-- A stored script used in the C10 witness. -/
def scriptA : LocalScript :=
  ⟨"id-a", "slug-shared", "Name A", none, "cat", "powershell", "code-a",
    none, true, false, none, none⟩

/-- A new script that collides with `scriptA` on slug but not id. -/
def scriptB : LocalScript :=
  ⟨"id-b", "slug-shared", "Name B", none, "cat", "powershell", "code-b",
    none, true, false, none, none⟩

/-- Witness for C10 at a concrete one-row table. -/
theorem c10_upsert_script_slug_replaces_witness :
    (∀ x ∈ upsert_script [⟨scriptA, "t0"⟩] scriptB "t1",
      ¬(x.script.id = (⟨scriptA, "t0"⟩ : ScriptRow).script.id ∧
        x.script.slug = (⟨scriptA, "t0"⟩ : ScriptRow).script.slug)) ∧
    (∃ x ∈ upsert_script [⟨scriptA, "t0"⟩] scriptB "t1",
      x.script = scriptB) :=
  c10_upsert_script_slug_replaces _ _ _ _ (by simp) (by decide) (by decide)

-- ============================================
-- scripts pull (sync.rs, sync_scripts_from_supabase) and reads
-- ============================================

/-- One JSON record of the backend's scripts response, as accessed by
sync.rs 48-61: each field is `none` when the key is absent, null or of the
wrong JSON type (`as_str` / `as_bool` then yields None in the source). -/
structure JsonScript where
  id : Option String
  slug : Option String
  name : Option String
  description : Option String
  category : Option String
  language : Option String
  code : Option String
  icon : Option String
  is_active : Option Bool
  requires_admin : Option Bool
  estimated_time : Option String
  success_message : Option String
  deriving DecidableEq, Repr

/-- The `LocalScript` built from a backend record (sync.rs 48-61), with
the source's defaults: empty string for id/slug/name/code, "general" for
category, "powershell" for language, true for is_active, false for
requires_admin. -/
def toLocalScript (j : JsonScript) : LocalScript :=
  { id := j.id.getD ""
    slug := j.slug.getD ""
    name := j.name.getD ""
    description := j.description
    category := j.category.getD "general"
    language := j.language.getD "powershell"
    code := j.code.getD ""
    icon := j.icon
    is_active := j.is_active.getD true
    requires_admin := j.requires_admin.getD false
    estimated_time := j.estimated_time
    success_message := j.success_message }

/-- The per-record validation of sync.rs 63:
`!local_script.slug.is_empty() && !local_script.code.is_empty()`. -/
def validScript (j : JsonScript) : Bool :=
  !((toLocalScript j).slug == "") && !((toLocalScript j).code == "")

/-- Outcome of the HTTP GET in `sync_scripts_from_supabase`: either a
transport (reqwest) error, or a status code together with the parsed
response array. -/
inductive FetchScripts where
  | netErr (e : String)
  | ok (status : Nat) (records : List JsonScript)
  deriving DecidableEq, Repr

/-- `reqwest::StatusCode::is_success()`: 2xx. -/
def httpSuccess (status : Nat) : Bool :=
  decide (200 ≤ status) && decide (status < 300)

/-- `sync_scripts_from_supabase` (sync.rs 26-74): propagate a transport
error, reject a non-2xx status, otherwise convert each record, skip the
ones failing validation, upsert the rest and count them. -/
def sync_scripts_from_supabase (fetch : FetchScripts)
    (table : List ScriptRow) (now : String) :
    Except String (Nat × List ScriptRow) :=
  match fetch with
  | .netErr e => .error ("Network error: " ++ e)
  | .ok status records =>
    if httpSuccess status then
      .ok (records.foldl (fun acc j =>
        if validScript j then
          (acc.1 + 1, upsert_script acc.2 (toLocalScript j) now)
        else acc) (0, table))
    else .error ("API error: " ++ toString status)

/-- The ordering of `ORDER BY category, name` (both TEXT columns). -/
def scriptOrdLe (a b : LocalScript) : Bool :=
  if a.category = b.category then !(sqliteTextLt b.name a.name)
  else sqliteTextLt a.category b.category

/-- `Database::get_all_scripts` (database.rs 161-187):
`SELECT ... FROM scripts WHERE is_active = 1 ORDER BY category, name`. -/
def get_all_scripts (table : List ScriptRow) : List LocalScript :=
  sortByLe scriptOrdLe
    ((table.filter (fun r => r.script.is_active)).map (fun r => r.script))

theorem sync_fold_counts (records : List JsonScript) :
    ∀ (n : Nat) (table : List ScriptRow) (now : String),
      records.foldl (fun acc j =>
        if validScript j then
          (acc.1 + 1, upsert_script acc.2 (toLocalScript j) now)
        else acc) (n, table)
      = (n + (records.filter validScript).length,
         (records.filter validScript).foldl
           (fun t j => upsert_script t (toLocalScript j) now) table) := by
  induction records with
  | nil => intro n table now; simp
  | cons j js ih =>
    intro n table now
    by_cases h : validScript j = true
    · rw [List.foldl_cons, if_pos h, ih, List.filter_cons_of_pos h]
      simp only [List.length_cons, List.foldl_cons, Prod.mk.injEq, and_true]
      show n + 1 + (js.filter validScript).length
        = n + ((js.filter validScript).length + 1)
      omega
    · rw [List.foldl_cons, if_neg h, ih, List.filter_cons_of_neg h]

/-- C3: `sync_scripts_from_supabase` fails as a whole exactly on a
transport error or a non-2xx status; on a 2xx response it returns the
number of records passing the slug/code validation and upserts exactly
those records, in order.  At the spec's concrete scenario — three valid
records plus one with an empty slug, against an empty table — the count
is 3 and `get_all_scripts` returns exactly the three valid records
ordered by (category, name). -/
theorem c3_sync_scripts_validation_and_count :
    (∀ (fetch : FetchScripts) (table : List ScriptRow) (now : String),
      (∃ err, sync_scripts_from_supabase fetch table now = .error err) ↔
        ((∃ e, fetch = .netErr e) ∨
         (∃ st recs, fetch = .ok st recs ∧ httpSuccess st = false))) ∧
    (∀ (st : Nat) (recs : List JsonScript) (table : List ScriptRow)
        (now : String), httpSuccess st = true →
      sync_scripts_from_supabase (.ok st recs) table now =
        .ok ((recs.filter validScript).length,
          (recs.filter validScript).foldl
            (fun t j => upsert_script t (toLocalScript j) now) table)) ∧
    (sync_scripts_from_supabase
        (.ok 200 [⟨some "id-1", some "alpha", some "Clean", none,
            some "maintenance", some "powershell", some "code-1", none,
            some true, some false, none, none⟩,
          ⟨some "id-2", some "beta", some "Scan", none,
            some "maintenance", some "powershell", some "code-2", none,
            some true, some false, none, none⟩,
          ⟨some "id-3", some "gamma", some "Fix", none,
            some "network", some "powershell", some "code-3", none,
            some true, some false, none, none⟩,
          ⟨some "id-4", some "", some "Bad", none,
            some "network", some "powershell", some "code-4", none,
            some true, some false, none, none⟩]) [] "T0"
      = .ok (3,
          [⟨⟨"id-1", "alpha", "Clean", none, "maintenance", "powershell",
              "code-1", none, true, false, none, none⟩, "T0"⟩,
           ⟨⟨"id-2", "beta", "Scan", none, "maintenance", "powershell",
              "code-2", none, true, false, none, none⟩, "T0"⟩,
           ⟨⟨"id-3", "gamma", "Fix", none, "network", "powershell",
              "code-3", none, true, false, none, none⟩, "T0"⟩])) ∧
    (get_all_scripts
        [⟨⟨"id-1", "alpha", "Clean", none, "maintenance", "powershell",
            "code-1", none, true, false, none, none⟩, "T0"⟩,
         ⟨⟨"id-2", "beta", "Scan", none, "maintenance", "powershell",
            "code-2", none, true, false, none, none⟩, "T0"⟩,
         ⟨⟨"id-3", "gamma", "Fix", none, "network", "powershell",
            "code-3", none, true, false, none, none⟩, "T0"⟩]
      = [⟨"id-1", "alpha", "Clean", none, "maintenance", "powershell",
            "code-1", none, true, false, none, none⟩,
         ⟨"id-2", "beta", "Scan", none, "maintenance", "powershell",
            "code-2", none, true, false, none, none⟩,
         ⟨"id-3", "gamma", "Fix", none, "network", "powershell",
            "code-3", none, true, false, none, none⟩]) := by
  refine ⟨?_, ?_, by rfl, by rfl⟩
  · intro fetch table now
    cases fetch with
    | netErr e =>
      constructor
      · intro _; exact Or.inl ⟨e, rfl⟩
      · intro _; exact ⟨"Network error: " ++ e, rfl⟩
    | ok st recs =>
      constructor
      · rintro ⟨err, herr⟩
        by_cases h : httpSuccess st = true
        · simp [sync_scripts_from_supabase, h] at herr
        · simp only [Bool.not_eq_true] at h
          exact Or.inr ⟨st, recs, rfl, h⟩
      · rintro (⟨e, he⟩ | ⟨st2, recs2, heq, hfalse⟩)
        · exact FetchScripts.noConfusion he
        · injection heq with h1 h2
          subst h1
          refine ⟨"API error: " ++ toString st, ?_⟩
          simp [sync_scripts_from_supabase, hfalse]
  · intro st recs table now h
    simp only [sync_scripts_from_supabase, h, if_pos]
    rw [sync_fold_counts]
    simp

/-- Witness for C3: the characterizations applied at a 500 status and at a
2xx status with one invalid record. -/
theorem c3_sync_scripts_validation_and_count_witness :
    (∃ err, sync_scripts_from_supabase (.ok 500 []) [] "T0" = .error err) ∧
    sync_scripts_from_supabase
        (.ok 200 [⟨some "id-4", some "", some "Bad", none, some "network",
          some "powershell", some "code-4", none, some true, some false,
          none, none⟩]) [] "T0" = .ok (0, []) := by
  constructor
  · exact (c3_sync_scripts_validation_and_count.1 _ [] "T0").2
      (Or.inr ⟨500, [], rfl, by decide⟩)
  · rw [c3_sync_scripts_validation_and_count.2.1 200 _ [] "T0" (by decide)]
    rfl

-- ============================================
-- remote executions (sync.rs, check_remote_executions)
-- ============================================

/-- The nested `scripts(name,code,language)` join object of one action
item.  Each field is `none` when the corresponding key is absent, null or
not a string (indexing a JSON null also yields null, hence None). -/
structure ScriptsJoin where
  name : Option String
  code : Option String
  language : Option String
  deriving DecidableEq, Repr

/-- One element of the backend's remote_executions response as accessed
by sync.rs 156-169.  `scripts = none` models an absent "scripts" key
(`e.get("scripts")` returns None exactly then); a present-but-null value
is `some ⟨none, none, none⟩`.  The other fields are `none` when absent or
not a JSON string. -/
structure ExecItemJson where
  id : Option String
  script_id : Option String
  status : Option String
  requested_by : Option String
  scripts : Option ScriptsJoin
  deriving DecidableEq, Repr

/-- The `RemoteExecution` struct (sync.rs 117-126). -/
structure RemoteExecution where
  id : String
  script_id : String
  script_name : Option String
  script_code : Option String
  script_language : Option String
  requested_by : Option String
  status : String
  deriving DecidableEq, Repr

/-- The `filter_map` closure of sync.rs 158-169: the `?` operator drops
the item when the "scripts" key or any of the required string fields id,
script_id, status is missing; the nested name/code/language and
requested_by are optional passthroughs. -/
def convertExecItem (e : ExecItemJson) : Option RemoteExecution :=
  match e.scripts, e.id, e.script_id, e.status with
  | some scr, some i, some sid, some st =>
    some ⟨i, sid, scr.name, scr.code, scr.language, e.requested_by, st⟩
  | _, _, _, _ => none

/-- Outcome of the HTTP GET in `check_remote_executions`: a transport
error, or a status code with the parsed body (`none` models a body that
fails JSON parsing, which the source maps to an empty list via
`unwrap_or_default`). -/
inductive FetchExec where
  | netErr (e : String)
  | ok (status : Nat) (body : Option (List ExecItemJson))
  deriving DecidableEq, Repr

/-- `check_remote_executions` (sync.rs 128-173): an identity-resolution
failure short-circuits to `Ok(vec![])`; a transport error of its own
fetch propagates; a non-2xx status yields `Ok(vec![])`; otherwise the
parsed items are converted with `filter_map`. -/
def check_remote_executions (identity : Except String String)
    (fetch : FetchExec) : Except String (List RemoteExecution) :=
  match identity with
  | .error _ => .ok []
  | .ok _ =>
    match fetch with
    | .netErr e => .error ("Network error: " ++ e)
    | .ok status body =>
      if httpSuccess status then
        .ok ((body.getD []).filterMap convertExecItem)
      else .ok []

/-- C8: whenever device identity cannot be resolved,
`check_remote_executions` returns an empty list successfully, whatever its
own fetch would have done; and on a fetched batch, an item is dropped
exactly when it misses the "scripts" object or one of the required string
fields id, script_id, status, while every convertible item appears in the
result. -/
theorem c8_check_remote_executions_graceful :
    (∀ (e : String) (fetch : FetchExec),
      check_remote_executions (.error e) fetch = .ok []) ∧
    (∀ (ident : String) (status : Nat) (items : List ExecItemJson),
      httpSuccess status = true →
      check_remote_executions (.ok ident) (.ok status (some items))
        = .ok (items.filterMap convertExecItem)) ∧
    (∀ item : ExecItemJson, convertExecItem item = none ↔
      (item.scripts = none ∨ item.id = none ∨ item.script_id = none ∨
        item.status = none)) ∧
    (∀ (ident : String) (status : Nat) (items : List ExecItemJson)
        (item : ExecItemJson) (r : RemoteExecution),
      httpSuccess status = true → item ∈ items →
      convertExecItem item = some r →
      ∃ l, check_remote_executions (.ok ident) (.ok status (some items))
        = .ok l ∧ r ∈ l) := by
  refine ⟨?_, ?_, ?_, ?_⟩
  · intro e fetch; rfl
  · intro ident status items h
    simp [check_remote_executions, h]
  · intro item
    rcases item with ⟨i, sid, st, rb, scr⟩
    cases scr <;> cases i <;> cases sid <;> cases st <;>
      simp [convertExecItem]
  · intro ident status items item r h hmem hconv
    refine ⟨items.filterMap convertExecItem,
      by simp [check_remote_executions, h], ?_⟩
    exact List.mem_filterMap.2 ⟨item, hmem, hconv⟩

/-- Witness for C8: a batch holding one complete item and one item with a
missing id yields exactly the converted complete item. -/
theorem c8_check_remote_executions_graceful_witness :
    check_remote_executions (.ok "dev-1")
        (.ok 200 (some
          [⟨some "e1", some "s1", some "authorized", none,
            some ⟨some "Fix", some "code", some "powershell"⟩⟩,
           ⟨none, some "s2", some "authorized", none,
            some ⟨none, none, none⟩⟩]))
      = .ok [⟨"e1", "s1", some "Fix", some "code", some "powershell",
          none, "authorized"⟩] := by
  rw [c8_check_remote_executions_graceful.2.1 "dev-1" 200 _ (by decide)]
  rfl

-- ============================================
-- remote execution status update (sync.rs, update_remote_execution)
-- ============================================

/-- `chars().take(n).collect::<String>()`: the first n Unicode scalar
values of the string. -/
def truncateChars (n : Nat) (s : String) : String := String.mk (s.data.take n)

/-- The JSON body assembled by `update_remote_execution`
(sync.rs 186-198): a "status" field, optional "output" and "error"
fields, and an optional "executed_at" timestamp. -/
structure ExecPayload where
  status : String
  output : Option String
  error : Option String
  executed_at : Option String
  deriving DecidableEq, Repr

/-- The payload construction of `update_remote_execution`
(sync.rs 186-198): output truncated to 10000 chars when supplied, error
to 5000 chars when supplied, and `executed_at` stamped with the current
time (`now`, the source's `chrono::Utc::now().to_rfc3339()`) exactly when
the status is "completed" or "failed". -/
def update_remote_execution_payload (status : String)
    (output error : Option String) (now : String) : ExecPayload :=
  { status := status
    output := output.map (fun s => truncateChars 10000 s)
    error := error.map (fun s => truncateChars 5000 s)
    executed_at :=
      if status == "completed" || status == "failed" then some now
      else none }

theorem truncateChars_length_le (n : Nat) (s : String) :
    (truncateChars n s).length ≤ n := by
  show (s.data.take n).length ≤ n
  rw [List.length_take]
  exact Nat.min_le_left _ _

theorem truncateChars_prefix (n : Nat) (s : String) :
    (truncateChars n s).data <+: s.data := by
  show s.data.take n <+: s.data
  exact List.take_prefix n s.data

theorem truncateChars_of_le (n : Nat) (s : String) (h : s.length ≤ n) :
    truncateChars n s = s := by
  show String.mk (s.data.take n) = s
  rw [List.take_of_length_le h]

/-- C9: the transmitted payload carries the output text truncated to at
most 10000 characters and the error text truncated to at most 5000
characters, each present exactly when supplied and untouched when already
short enough, and it carries an `executed_at` timestamp (the current
time) exactly when the status is "completed" or "failed". -/
theorem c9_update_remote_execution_truncation :
    ∀ (status : String) (output error : Option String) (now : String),
      ((update_remote_execution_payload status output error
          now).output.isSome ↔ output.isSome) ∧
      (∀ t, (update_remote_execution_payload status output error
          now).output = some t →
        t.length ≤ 10000 ∧ t.data <+: (output.getD "").data) ∧
      (∀ s, output = some s → s.length ≤ 10000 →
        (update_remote_execution_payload status output error now).output
          = some s) ∧
      ((update_remote_execution_payload status output error
          now).error.isSome ↔ error.isSome) ∧
      (∀ t, (update_remote_execution_payload status output error
          now).error = some t →
        t.length ≤ 5000 ∧ t.data <+: (error.getD "").data) ∧
      (∀ s, error = some s → s.length ≤ 5000 →
        (update_remote_execution_payload status output error now).error
          = some s) ∧
      ((update_remote_execution_payload status output error
          now).executed_at.isSome ↔
        (status = "completed" ∨ status = "failed")) ∧
      (∀ ts, (update_remote_execution_payload status output error
          now).executed_at = some ts → ts = now) := by
  intro status output error now
  refine ⟨?_, ?_, ?_, ?_, ?_, ?_, ?_, ?_⟩
  · cases output <;> simp [update_remote_execution_payload]
  · intro t ht
    cases output with
    | none => exact absurd ht (by simp [update_remote_execution_payload])
    | some s =>
      have : truncateChars 10000 s = t := by
        simpa [update_remote_execution_payload] using ht
      rw [← this]
      exact ⟨truncateChars_length_le _ _, truncateChars_prefix _ _⟩
  · intro s hs hlen
    subst hs
    simp [update_remote_execution_payload, truncateChars_of_le _ _ hlen]
  · cases error <;> simp [update_remote_execution_payload]
  · intro t ht
    cases error with
    | none => exact absurd ht (by simp [update_remote_execution_payload])
    | some s =>
      have : truncateChars 5000 s = t := by
        simpa [update_remote_execution_payload] using ht
      rw [← this]
      exact ⟨truncateChars_length_le _ _, truncateChars_prefix _ _⟩
  · intro s hs hlen
    subst hs
    simp [update_remote_execution_payload, truncateChars_of_le _ _ hlen]
  · by_cases h1 : status = "completed"
    · simp [update_remote_execution_payload, h1]
    · by_cases h2 : status = "failed" <;>
        simp [update_remote_execution_payload, h1, h2]
  · intro ts hts
    by_cases h1 : status = "completed"
    · simpa [update_remote_execution_payload, h1] using hts.symm
    · by_cases h2 : status = "failed"
      · simpa [update_remote_execution_payload, h1, h2] using hts.symm
      · exact absurd hts
          (by simp [update_remote_execution_payload, h1, h2])

/-- Witness for C9: a short output passes through unchanged and a
"completed" status stamps the timestamp. -/
theorem c9_update_remote_execution_truncation_witness :
    (update_remote_execution_payload "completed" (some "out") none
        "2026-01-01T00:00:00Z").output = some "out" ∧
    ((update_remote_execution_payload "completed" (some "out") none
        "2026-01-01T00:00:00Z").executed_at.isSome ↔
      ("completed" = "completed" ∨ "completed" = "failed")) :=
  ⟨(c9_update_remote_execution_truncation "completed" (some "out") none
      "2026-01-01T00:00:00Z").2.2.1 "out" rfl (by decide),
   (c9_update_remote_execution_truncation "completed" (some "out") none
      "2026-01-01T00:00:00Z").2.2.2.2.2.2.1⟩

end Microdiag
